import Mathlib

/-!
Verification of the adb daemon's transport and in-process service-socket
subsystem against its specification.

The service-socket code (`ServiceSocket`, `SinkSocket`, `SourceSocket`,
`daemon_service_to_socket`) is embedded from the repository's daemon services
source.  The `atransport` member functions (`SetFeatures`, `AddDisconnect`,
`RemoveDisconnect`, `RunDisconnects`, `parse_banner`, `MatchesTarget`) are not
part of the provided sources (only their unit test is), so those operations are
modelled from the specification, and the embedding is checked to agree with the
unit test's expectations.

Strings are processed through executable helpers over `List Char` so that every
definition evaluates inside the kernel.
-/

/-- Connection state of a transport (spec section 3, mirrored by the source's
`ConnectionState` enum). -/
inductive ConnectionState where
  | connecting
  | authorizing
  | unauthorized
  | noPermission
  | detached
  | offline
  | bootloader
  | device
  | host
  | recovery
  | sideload
  | rescue
  deriving DecidableEq, Repr

/-- Transport kind, mirroring the source's `TransportType`
(`kTransportUsb`, `kTransportLocal`, `kTransportAny`). -/
inductive TransportType where
  | usb
  | local
  | any
  deriving DecidableEq, Repr

/-- Split a character list on every occurrence of the separator `sep`
(the behaviour of `android::base::Split` on a single-character separator:
n separators yield n+1 pieces, possibly empty). -/
def splitOnSep (sep : Char) : List Char → List (List Char)
  | [] => [[]]
  | c :: rest =>
    if c = sep then [] :: splitOnSep sep rest
    else
      match splitOnSep sep rest with
      | [] => [[c]]
      | t :: ts => (c :: t) :: ts

/-- The raw comma-separated tokens of a feature string. -/
def rawTokens (s : String) : List String :=
  (splitOnSep ',' s.toList).map (fun cs => String.mk cs)

/-- Modelled from the spec: the negotiated feature set denoted by a
comma-separated feature string ("The `features` value is a comma-separated
set"; an empty string denotes the empty set).  Represented as a
duplicate-free list. -/
def featureTokens (s : String) : List String :=
  if s = "" then [] else (rawTokens s).dedup

/-- The transport data model (spec section 3): identity strings, transport
kind, connection state, negotiated feature set and the registered disconnect
hooks (hooks are identified by a number; registration order is the list
order). -/
structure atransport where
  type : TransportType := .usb
  serial : String := ""
  devpath : String := ""
  product : String := ""
  model : String := ""
  device : String := ""
  connectionState : ConnectionState := .offline
  features : List String := []
  disconnects : List Nat := []
  deriving DecidableEq, Repr

/-- Modelled from the spec: `set_features(list)` replaces the negotiated
feature set with the token set of its argument ("the set is replaced, not
merged"). -/
def atransport.SetFeatures (t : atransport) (s : String) : atransport :=
  { t with features := featureTokens s }

/-- Modelled from the spec: `has_feature(name)` membership test on the
negotiated feature set. -/
def atransport.has_feature (t : atransport) (f : String) : Bool :=
  f ∈ t.features

/-- Modelled from the spec: `add_disconnect(hook)` appends the hook to the
registration list. -/
def atransport.AddDisconnect (t : atransport) (h : Nat) : atransport :=
  { t with disconnects := t.disconnects ++ [h] }

/-- Modelled from the spec: `remove_disconnect(hook)` removes the hook from
the registration list before it fires. -/
def atransport.RemoveDisconnect (t : atransport) (h : Nat) : atransport :=
  { t with disconnects := t.disconnects.filter (fun x => x ≠ h) }

/-- Modelled from the spec: `run_disconnects()` invokes the registered hooks
in registration order and clears the list.  The first component is the
sequence of hooks fired by this call, in firing order. -/
def atransport.RunDisconnects (t : atransport) : List Nat × atransport :=
  (t.disconnects, { t with disconnects := [] })

/-- A default-initialized transport, as built at the start of the unit tests. -/
def atransport.fresh : atransport := {}

/-- Claim C1: after any nonempty sequence of `SetFeatures` calls the feature
set equals exactly the token set of the last input (replacement, never a
merge), and an input with duplicate tokens yields the same feature set as the
deduplicated input. -/
theorem c1_set_features_replaces (t : atransport) :
    (∀ (fs : List String) (h : fs ≠ []),
        (fs.foldl atransport.SetFeatures t).features = featureTokens (fs.getLast h)) ∧
    (∀ s₁ s₂ : String, s₁ ≠ "" → s₂ ≠ "" →
        rawTokens s₂ = (rawTokens s₁).dedup →
        (t.SetFeatures s₁).features = (t.SetFeatures s₂).features) := by
  constructor
  · intro fs
    induction fs generalizing t with
    | nil => intro h; exact absurd rfl h
    | cons a l ih =>
      intro _
      cases l with
      | nil => simp [atransport.SetFeatures]
      | cons b l' =>
        rw [List.foldl_cons, List.getLast_cons (by simp)]
        exact ih (t.SetFeatures a) (by simp)
  · intro s₁ s₂ h₁ h₂ hdedup
    simp only [atransport.SetFeatures, featureTokens, if_neg h₁, if_neg h₂, hdedup,
      List.dedup_idem]

/-- Concrete instantiation of `c1_set_features_replaces`:
`"foo,bar,foo"` and its deduplication `"bar,foo"` yield the same feature set,
and a two-step sequence keeps only the last input's tokens. -/
theorem c1_set_features_replaces_witness :
    ((["foo", "bar,baz"].foldl atransport.SetFeatures atransport.fresh).features
        = featureTokens "bar,baz") ∧
    (atransport.fresh.SetFeatures "foo,bar,foo").features
        = (atransport.fresh.SetFeatures "bar,foo").features :=
  ⟨(c1_set_features_replaces atransport.fresh).1 ["foo", "bar,baz"] (by simp),
   (c1_set_features_replaces atransport.fresh).2 "foo,bar,foo" "bar,foo"
     (by decide) (by decide) (by decide)⟩

/-- Claim C2: a registered disconnect hook fires exactly once, in registration
order, and is removed when it fires: after `AddDisconnect` a first
`RunDisconnects` fires the hooks in registration order (the new hook exactly
once), a second `RunDisconnects` fires nothing, and a hook removed by
`RemoveDisconnect` before firing never fires. -/
theorem c2_disconnect_hooks (t : atransport) (H : Nat) (hnew : H ∉ t.disconnects) :
    ((t.AddDisconnect H).RunDisconnects.1 = t.disconnects ++ [H]) ∧
    ((t.AddDisconnect H).RunDisconnects.1.count H = 1) ∧
    ((t.AddDisconnect H).RunDisconnects.2.RunDisconnects.1 = []) ∧
    (((t.AddDisconnect H).RemoveDisconnect H).RunDisconnects.1.count H = 0) := by
  refine ⟨rfl, ?_, rfl, ?_⟩
  · simp [atransport.AddDisconnect, atransport.RunDisconnects,
      List.count_append, List.count_eq_zero_of_not_mem hnew]
  · simp only [atransport.AddDisconnect, atransport.RemoveDisconnect,
      atransport.RunDisconnects]
    rw [List.count_eq_zero]
    simp

/-- Concrete instantiation of `c2_disconnect_hooks` on a fresh transport and
hook `7`. -/
theorem c2_disconnect_hooks_witness :
    ((atransport.fresh.AddDisconnect 7).RunDisconnects.1 = [7]) ∧
    ((atransport.fresh.AddDisconnect 7).RunDisconnects.1.count 7 = 1) ∧
    ((atransport.fresh.AddDisconnect 7).RunDisconnects.2.RunDisconnects.1 = []) ∧
    (((atransport.fresh.AddDisconnect 7).RemoveDisconnect 7).RunDisconnects.1.count 7 = 0) :=
  c2_disconnect_hooks atransport.fresh 7 (by decide)

/-- Consume an expected literal `p` from the front of `s`, returning the
remainder (the behaviour of `android::base::ConsumePrefix`). -/
def consumeLit? : List Char → List Char → Option (List Char)
  | [], s => some s
  | _ :: _, [] => none
  | p :: ps, c :: cs => if p = c then consumeLit? ps cs else none

/-- Split a character list at its LAST colon, returning the host and port
portions of a `host:port` serial; `none` when there is no colon. -/
def lastColonSplit : List Char → Option (List Char × List Char)
  | [] => none
  | c :: cs =>
    match lastColonSplit cs with
    | some (h, p) => some (c :: h, p)
    | none => if c = ':' then some ([], cs) else none

/-- Modelled from the spec: the side of a banner selects the connection state
(`host`, `device`, `bootloader`, `recovery`, `rescue`, `sideload`). -/
def sideToState (side : List Char) : Option ConnectionState :=
  if side = "host".toList then some .host
  else if side = "device".toList then some .device
  else if side = "bootloader".toList then some .bootloader
  else if side = "recovery".toList then some .recovery
  else if side = "rescue".toList then some .rescue
  else if side = "sideload".toList then some .sideload
  else none

/-- Split a character list at the first occurrence of `"::"`. -/
def splitDoubleColon : List Char → Option (List Char × List Char)
  | ':' :: ':' :: rest => some ([], rest)
  | c :: rest =>
    match splitDoubleColon rest with
    | some (a, b) => some (c :: a, b)
    | none => none
  | [] => none

/-- Modelled from the spec: apply one `key=value` banner property to the
transport.  Recognized keys are `ro.product.name`, `ro.product.model`,
`ro.product.device` and `features`; unknown keys are ignored, as are pieces
that are not a single `key=value` pair. -/
def applyBannerProp (t : atransport) (piece : List Char) : atransport :=
  match splitOnSep '=' piece with
  | [k, v] =>
    if k = "ro.product.name".toList then { t with product := String.mk v }
    else if k = "ro.product.model".toList then { t with model := String.mk v }
    else if k = "ro.product.device".toList then { t with device := String.mk v }
    else if k = "features".toList then t.SetFeatures (String.mk v)
    else t
  | _ => t

/-- Modelled from the spec: `parse_banner` on `<side>::<props>` applies each
semicolon-separated `key=value` property (the list is traditionally
`;`-terminated, so empty pieces are skipped) and then sets the connection
state from the side.  A banner without `::` or with an unknown side leaves the
transport offline (spec design note on malformed banners). -/
def parse_banner (banner : String) (t : atransport) : atransport :=
  match splitDoubleColon banner.toList with
  | none => { t with connectionState := .offline }
  | some (side, props) =>
    let t' := (splitOnSep ';' props).foldl
      (fun tr piece => if piece = [] then tr else applyBannerProp tr piece) t
    match sideToState side with
    | some st => { t' with connectionState := st }
    | none => { t' with connectionState := .offline }

/-- Claim C4: `parse_banner` on `<side>::<props>` sets the connection state
from the side (`host` yields `host`), product/model/device from the
`ro.product.*` keys and the feature set from the comma-separated `features`
value; the empty-props banner `"host::"` leaves product, model, device and
features empty. -/
theorem c4_parse_banner (t : atransport)
    (hp : t.product = "") (hm : t.model = "") (hd : t.device = "")
    (hf : t.features = []) :
    ((parse_banner "host::" t).connectionState = .host ∧
     (parse_banner "host::" t).product = "" ∧
     (parse_banner "host::" t).model = "" ∧
     (parse_banner "host::" t).device = "" ∧
     (parse_banner "host::" t).features = []) ∧
    (∀ u : atransport,
      (parse_banner
        "host::ro.product.name=foo;ro.product.model=bar;ro.product.device=baz;features=woodly,doodly"
        u).connectionState = .host ∧
      (parse_banner
        "host::ro.product.name=foo;ro.product.model=bar;ro.product.device=baz;features=woodly,doodly"
        u).product = "foo" ∧
      (parse_banner
        "host::ro.product.name=foo;ro.product.model=bar;ro.product.device=baz;features=woodly,doodly"
        u).model = "bar" ∧
      (parse_banner
        "host::ro.product.name=foo;ro.product.model=bar;ro.product.device=baz;features=woodly,doodly"
        u).device = "baz" ∧
      (parse_banner
        "host::ro.product.name=foo;ro.product.model=bar;ro.product.device=baz;features=woodly,doodly"
        u).features = ["woodly", "doodly"]) := by
  constructor
  · exact ⟨rfl, hp, hm, hd, hf⟩
  · intro u
    exact ⟨rfl, rfl, rfl, rfl, rfl⟩

/-- Concrete instantiation of `c4_parse_banner` on a fresh transport. -/
theorem c4_parse_banner_witness :
    (parse_banner "host::" atransport.fresh).connectionState = .host ∧
    (parse_banner "host::" atransport.fresh).features = [] ∧
    (parse_banner
      "host::ro.product.name=foo;ro.product.model=bar;ro.product.device=baz;features=woodly,doodly"
      atransport.fresh).product = "foo" :=
  ⟨(c4_parse_banner atransport.fresh rfl rfl rfl rfl).1.1,
   (c4_parse_banner atransport.fresh rfl rfl rfl rfl).1.2.2.2.2,
   ((c4_parse_banner atransport.fresh rfl rfl rfl rfl).2 atransport.fresh).2.1⟩

/-- Does the stripped network target `rest` match the serial of a local
transport?  Modelled from the spec: for `tcp:H[:P]` / `udp:H[:P]`, `H` must
equal the serial's host portion and, if `P` is given, the port — i.e. `rest`
is either the whole `host:port` serial or its bare host portion. -/
def netTargetMatch (serial rest : List Char) : Bool :=
  rest = serial ||
    match lastColonSplit serial with
    | some (h, _) => rest = h
    | none => false

/-- Modelled from the spec: `matches_target(query)`.  A bare query matches the
serial or the devpath; `product:X` / `model:X` / `device:X` match the
corresponding attribute; `tcp:H[:P]` / `udp:H[:P]` and the bare host portion
of a `host:port` serial match only on local (network) transports. -/
def atransport.MatchesTarget (t : atransport) (query : String) : Bool :=
  let q := query.toList
  if q = t.serial.toList || q = t.devpath.toList then true
  else
    match consumeLit? "product:".toList q with
    | some rest => rest = t.product.toList
    | none =>
      match consumeLit? "model:".toList q with
      | some rest => rest = t.model.toList
      | none =>
        match consumeLit? "device:".toList q with
        | some rest => rest = t.device.toList
        | none =>
          match consumeLit? "tcp:".toList q with
          | some rest => t.type = .local && netTargetMatch t.serial.toList rest
          | none =>
            match consumeLit? "udp:".toList q with
            | some rest => t.type = .local && netTargetMatch t.serial.toList rest
            | none =>
              t.type = .local &&
                match lastColonSplit t.serial.toList with
                | some (h, _) => q = h
                | none => false

/-- The transport of the unit test's local-network matching scenario: serial
`100.100.100.100:5555`, all other identity strings empty, kind `ty`. -/
def netTestTransport (ty : TransportType) : atransport :=
  { type := ty, serial := "100.100.100.100:5555" }

/-- Claim C5: network-form queries `tcp:H[:P]` / `udp:H[:P]`, and the bare
host form, match exactly on local transports with `H` the serial's host
portion and `P` (when present) the serial's port; an unrecognized prefix such
as `abc:` or a differing port never match, and on a non-local transport all
these queries are false. -/
theorem c5_matches_target_local (ty : TransportType) :
    ((netTestTransport ty).MatchesTarget "100.100.100.100"
        = (ty = TransportType.local)) ∧
    ((netTestTransport ty).MatchesTarget "tcp:100.100.100.100"
        = (ty = TransportType.local)) ∧
    ((netTestTransport ty).MatchesTarget "tcp:100.100.100.100:5555"
        = (ty = TransportType.local)) ∧
    ((netTestTransport ty).MatchesTarget "udp:100.100.100.100"
        = (ty = TransportType.local)) ∧
    ((netTestTransport ty).MatchesTarget "udp:100.100.100.100:5555"
        = (ty = TransportType.local)) ∧
    ((netTestTransport ty).MatchesTarget "100.100.100" = false) ∧
    ((netTestTransport ty).MatchesTarget "100.100.100.100:" = false) ∧
    ((netTestTransport ty).MatchesTarget "100.100.100.100:-1" = false) ∧
    ((netTestTransport ty).MatchesTarget "100.100.100.100:5554" = false) ∧
    ((netTestTransport ty).MatchesTarget "tcp:100.100.100.100:5554" = false) ∧
    ((netTestTransport ty).MatchesTarget "abc:100.100.100.100" = false) := by
  cases ty <;> decide

/-- The transport of the unit test's attribute matching scenario. -/
def attrTestTransport (ty : TransportType) : atransport :=
  { type := ty, serial := "foo", devpath := "/path/to/bar",
    product := "test_product", model := "test_model", device := "test_device" }

/-- Claim C6: a bare query matches when it equals the serial or the devpath
(on every transport), `product:X` / `model:X` / `device:X` match exactly when
`X` equals the corresponding attribute, and a bare query equal to an
attribute value but lacking the prefix does not match. -/
theorem c6_matches_target (ty : TransportType) :
    (∀ t : atransport, t.MatchesTarget t.serial = true) ∧
    (∀ t : atransport, t.MatchesTarget t.devpath = true) ∧
    ((attrTestTransport ty).MatchesTarget "foo" = true) ∧
    ((attrTestTransport ty).MatchesTarget "/path/to/bar" = true) ∧
    ((attrTestTransport ty).MatchesTarget "product:test_product" = true) ∧
    ((attrTestTransport ty).MatchesTarget "model:test_model" = true) ∧
    ((attrTestTransport ty).MatchesTarget "device:test_device" = true) ∧
    ((attrTestTransport ty).MatchesTarget "product:other" = false) ∧
    ((attrTestTransport ty).MatchesTarget "model:other" = false) ∧
    ((attrTestTransport ty).MatchesTarget "device:other" = false) ∧
    ((attrTestTransport ty).MatchesTarget "test_product" = false) ∧
    ((attrTestTransport ty).MatchesTarget "test_model" = false) ∧
    ((attrTestTransport ty).MatchesTarget "test_device" = false) := by
  refine ⟨?_, ?_, ?_⟩
  · intro t; simp [atransport.MatchesTarget]
  · intro t; simp [atransport.MatchesTarget]
  · cases ty <;> decide

/-- An event observable by the peer of an in-process service socket: an OKAY
credit return carrying the acknowledged byte count (`send_ready`), a CLSE
resulting from the socket closing, or a WRTE of a payload enqueued to the
peer. -/
inductive PeerEvent where
  | okay (credit : Nat)
  | clse
  | wrte (data : List Nat)
  deriving DecidableEq, Repr

/-- Result of a service socket's virtual `Enqueue`: the returned status code,
the events the call emitted towards the peer, and the socket state afterwards
(`none` when the socket closed and destroyed itself). -/
structure EnqResult (σ : Type) where
  ret : Int
  events : List PeerEvent
  state : Option σ
  deriving DecidableEq, Repr

/-- `ServiceSocket::Close` cascading to the peer: the peer's back-pointer is
cleared, then the peer is shut down and closed, which surfaces as a CLSE at
the far end. -/
def serviceCloseEvents : List PeerEvent := [PeerEvent.clse]

/-- The `enqueue` callback installed by the `ServiceSocket` constructor: it
unconditionally calls `send_ready(self->id, self->peer->id, transport,
data.size())` first and only then dispatches to the virtual `Enqueue`
("This interface currently can't give any backpressure"). -/
def ServiceSocket.enqueue {σ : Type} (virt : σ → List Nat → EnqResult σ)
    (s : σ) (data : List Nat) : EnqResult σ :=
  let r := virt s data
  { r with events := PeerEvent.okay data.length :: r.events }

/-- `SinkSocket::Enqueue`: when `bytes_left_ <= data.size()` the socket is
done reading, closes itself (cascading a CLSE to the peer) and returns `-1`;
otherwise it consumes the payload, decrementing `bytes_left_`, and returns
`0`.  The state is the sink's `bytes_left_`. -/
def SinkSocket.Enqueue (bytesLeft : Nat) (data : List Nat) : EnqResult Nat :=
  if bytesLeft ≤ data.length then
    { ret := -1, events := serviceCloseEvents, state := none }
  else
    { ret := 0, events := [], state := some (bytesLeft - data.length) }

/-- `SourceSocket::Enqueue`: always rejects inbound data with `-1`, leaving
the socket state unchanged. -/
def SourceSocket.Enqueue (bytesLeft : Nat) (_data : List Nat) : EnqResult Nat :=
  { ret := -1, events := [], state := some bytesLeft }

/-- `SourceSocket::Ready`: compute `len = min(bytes_left_, max_payload)`;
when `len == 0` close the socket (CLSE cascades to the peer); otherwise
enqueue one zero-filled block of `len` bytes to the peer and decrement
`bytes_left_` by `len`. -/
def SourceSocket.Ready (bytesLeft maxPayload : Nat) :
    List PeerEvent × Option Nat :=
  let len := min bytesLeft maxPayload
  if len = 0 then (serviceCloseEvents, none)
  else ([PeerEvent.wrte (List.replicate len 0)], some (bytesLeft - len))

set_option maxRecDepth 8000 in
/-- Claim C3: on a sink of remaining capacity `n`, a write of `k < n` bytes is
accepted — `Enqueue` returns `0`, the wrapper has already returned an OKAY
credit of `k` to the peer, and the remaining capacity becomes `n - k` — while
a write of `k ≥ n` bytes makes the service close, so the peer receives a
CLSE; in particular on `sink:1000` a 100-byte write is accepted with OKAY and
the following 1000-byte write closes the service. -/
theorem c3_sink_flow (n : Nat) (data : List Nat) :
    (data.length < n →
      ServiceSocket.enqueue SinkSocket.Enqueue n data =
        { ret := 0, events := [PeerEvent.okay data.length],
          state := some (n - data.length) }) ∧
    (n ≤ data.length →
      ServiceSocket.enqueue SinkSocket.Enqueue n data =
        { ret := -1, events := [PeerEvent.okay data.length, PeerEvent.clse],
          state := none }) ∧
    (ServiceSocket.enqueue SinkSocket.Enqueue 1000 (List.replicate 100 0) =
      { ret := 0, events := [PeerEvent.okay 100], state := some 900 }) ∧
    (ServiceSocket.enqueue SinkSocket.Enqueue 900 (List.replicate 1000 0) =
      { ret := -1, events := [PeerEvent.okay 1000, PeerEvent.clse],
        state := none }) := by
  refine ⟨?_, ?_, ?_, ?_⟩
  · intro hk
    simp [ServiceSocket.enqueue, SinkSocket.Enqueue, Nat.not_le.mpr hk]
  · intro hk
    simp [ServiceSocket.enqueue, SinkSocket.Enqueue, hk, serviceCloseEvents]
  · simp [ServiceSocket.enqueue, SinkSocket.Enqueue, List.length_replicate]
  · simp [ServiceSocket.enqueue, SinkSocket.Enqueue, List.length_replicate,
      serviceCloseEvents]

/-- Concrete instantiation of `c3_sink_flow`: a 2-byte write on a sink with 5
bytes left is accepted, and a 5-byte write on a sink with 3 bytes left closes
it. -/
theorem c3_sink_flow_witness :
    (ServiceSocket.enqueue SinkSocket.Enqueue 5 [1, 2] =
      { ret := 0, events := [PeerEvent.okay 2], state := some 3 }) ∧
    (ServiceSocket.enqueue SinkSocket.Enqueue 3 [1, 2, 3, 4, 5] =
      { ret := -1, events := [PeerEvent.okay 5, PeerEvent.clse],
        state := none }) :=
  ⟨(c3_sink_flow 5 [1, 2]).1 (by decide),
   (c3_sink_flow 3 [1, 2, 3, 4, 5]).2.1 (by decide)⟩

/-- Claim C9: for every in-process service socket, the installed `enqueue`
callback returns the OKAY credit (`send_ready` with the payload size) before
and regardless of what the service-specific `Enqueue` does — in particular a
sink emits the OKAY first even on the payload that fills it, and a source
emits it even though it always rejects the data. -/
theorem c9_enqueue_always_credits :
    (∀ (σ : Type) (virt : σ → List Nat → EnqResult σ) (s : σ) (data : List Nat),
      (ServiceSocket.enqueue virt s data).events =
        PeerEvent.okay data.length :: (virt s data).events) ∧
    (∀ (n : Nat) (data : List Nat),
      (ServiceSocket.enqueue SinkSocket.Enqueue n data).events.head? =
        some (PeerEvent.okay data.length)) ∧
    (∀ (n : Nat) (data : List Nat),
      (ServiceSocket.enqueue SourceSocket.Enqueue n data).events.head? =
        some (PeerEvent.okay data.length)) := by
  refine ⟨fun σ virt s data => rfl, fun n data => rfl, fun n data => rfl⟩

/-- Claim C10: a `ready()` on a source with `r > 0` bytes remaining enqueues
to the peer exactly one zero-filled block of `min r max_payload` bytes —
never more than `max_payload` — and decreases the remaining count by that
size; with `r = 0` remaining it closes the socket instead of enqueuing. -/
theorem c10_source_ready (r mp : Nat) (hmp : 0 < mp) :
    (r = 0 → SourceSocket.Ready r mp = (serviceCloseEvents, none)) ∧
    (0 < r →
      SourceSocket.Ready r mp =
        ([PeerEvent.wrte (List.replicate (min r mp) 0)], some (r - min r mp)) ∧
      min r mp ≤ mp ∧ 0 < min r mp ∧
      (List.replicate (min r mp) 0).length = min r mp) := by
  constructor
  · intro hr
    simp [SourceSocket.Ready, hr]
  · intro hr
    have hlen : 0 < min r mp := lt_min hr hmp
    refine ⟨?_, min_le_right _ _, hlen, List.length_replicate _ _⟩
    simp [SourceSocket.Ready, Nat.pos_iff_ne_zero.mp hlen]

/-- Concrete instantiation of `c10_source_ready`: with 5 bytes remaining and
`max_payload = 3`, `ready()` sends one 3-byte zero block and leaves 2 bytes;
with 0 bytes remaining it closes. -/
theorem c10_source_ready_witness :
    (SourceSocket.Ready 0 3 = (serviceCloseEvents, none)) ∧
    (SourceSocket.Ready 5 3 =
      ([PeerEvent.wrte (List.replicate 3 0)], some 2)) :=
  ⟨(c10_source_ready 0 3 (by decide)).1 rfl,
   ((c10_source_ready 5 3 (by decide)).2 (by decide)).1⟩

/-- Decimal digit value of a character, if it is one. -/
def digitVal? (c : Char) : Option Nat :=
  if '0' ≤ c ∧ c ≤ '9' then some (c.toNat - '0'.toNat) else none

/-- Accumulating loop of `parseUint`. -/
def parseUintGo : List Char → Nat → Option Nat
  | [], acc => if acc < 2 ^ 64 then some acc else none
  | c :: rest, acc =>
    match digitVal? c with
    | some d => parseUintGo rest (10 * acc + d)
    | none => none

/-- `android::base::ParseUint<uint64_t>` as used by
`daemon_service_to_socket`, modelled for plain decimal inputs: the whole
string must be nonempty decimal digits and the value must fit in 64 bits,
otherwise parsing fails. -/
def parseUint (cs : List Char) : Option Nat :=
  if cs = [] then none else parseUintGo cs 0

/-- The in-process daemon service sockets `daemon_service_to_socket` can
build. -/
inductive DaemonSocket where
  | jdwp
  | trackJdwp
  | trackApp
  | sink (byteCount : Nat)
  | source (byteCount : Nat)
  deriving DecidableEq, Repr

/-- `daemon_service_to_socket`: `jdwp`, `track-jdwp` and `track-app` yield
their dedicated sockets; `sink:<n>` and `source:<n>` yield sink/source
sockets when `<n>` parses as an unsigned integer and fail otherwise; every
other name yields null. -/
def daemon_service_to_socket (name : String) : Option DaemonSocket :=
  if name = "jdwp" then some .jdwp
  else if name = "track-jdwp" then some .trackJdwp
  else if name = "track-app" then some .trackApp
  else
    match consumeLit? "sink:".toList name.toList with
    | some rest => (parseUint rest).map .sink
    | none =>
      match consumeLit? "source:".toList name.toList with
      | some rest => (parseUint rest).map .source
      | none => none

/-- The reply the OPEN handler sends for an in-process service request. -/
inductive OpenReply where
  | okay
  | clse
  deriving DecidableEq, Repr

/-- Modelled from the spec: on OPEN, when the in-process service factory
returns null the daemon responds `CLSE(0, remote_id)`; otherwise the new
socket is paired and an `OKAY` is sent. -/
def openReply (name : String) : OpenReply :=
  if (daemon_service_to_socket name).isSome then .okay else .clse

/-- A successful `consumeLit?` decomposes the input as literal followed by
remainder. -/
theorem consumeLit?_eq_some (p s r : List Char) (h : consumeLit? p s = some r) :
    s = p ++ r := by
  induction p generalizing s with
  | nil =>
    simp only [consumeLit?, Option.some.injEq] at h
    simp [h]
  | cons a ps ih =>
    cases s with
    | nil => simp [consumeLit?] at h
    | cons c cs =>
      by_cases hac : a = c
      · simp only [consumeLit?, if_pos hac] at h
        simp [hac, ih cs h]
      · simp [consumeLit?, hac] at h

/-- Claim C7: `daemon_service_to_socket` returns a socket exactly for the
recognized in-process service names — `jdwp`, `track-jdwp`, `track-app`, and
`sink:<n>` / `source:<n>` with `<n>` a valid unsigned integer — and null for
every other name, including sink/source requests whose count fails to parse;
the caller answers a null factory result with a CLSE to the peer. -/
theorem c7_daemon_service_to_socket (name : String) :
    ((daemon_service_to_socket name).isSome = true ↔
      (name = "jdwp" ∨ name = "track-jdwp" ∨ name = "track-app" ∨
       (∃ rest n, consumeLit? "sink:".toList name.toList = some rest ∧
          parseUint rest = some n) ∨
       (∃ rest n, consumeLit? "source:".toList name.toList = some rest ∧
          parseUint rest = some n))) ∧
    (daemon_service_to_socket name = none → openReply name = .clse) ∧
    (daemon_service_to_socket "sink:1000" = some (.sink 1000)) ∧
    (daemon_service_to_socket "source:50" = some (.source 50)) ∧
    (daemon_service_to_socket "sink:12x" = none) ∧
    (daemon_service_to_socket "sink:" = none) ∧
    (daemon_service_to_socket "shell:ls" = none) ∧
    (daemon_service_to_socket "jdwp" = some .jdwp) ∧
    (daemon_service_to_socket "track-jdwp" = some .trackJdwp) ∧
    (daemon_service_to_socket "track-app" = some .trackApp) := by
  refine ⟨?_, ?_, by decide, by decide, by decide, by decide, by decide,
    by decide, by decide, by decide⟩
  · unfold daemon_service_to_socket
    by_cases h1 : name = "jdwp"
    · simp [h1]
    by_cases h2 : name = "track-jdwp"
    · simp [h1, h2]
    by_cases h3 : name = "track-app"
    · simp [h1, h2, h3]
    simp only [if_neg h1, if_neg h2, if_neg h3]
    cases hsink : consumeLit? "sink:".toList name.toList with
    | some rest =>
      have heq := consumeLit?_eq_some _ _ _ hsink
      have hsrc : consumeLit? ['s', 'o', 'u', 'r', 'c', 'e', ':'] name.data = none := by
        have : name.data = ['s', 'i', 'n', 'k', ':'] ++ rest := heq
        rw [this]; rfl
      cases hn : parseUint rest with
      | some n => simp [hsink, hn, h1, h2, h3]
      | none => simp [hsink, hsrc, hn, h1, h2, h3]
    | none =>
      cases hsrc : consumeLit? "source:".toList name.toList with
      | some rest =>
        cases hn : parseUint rest with
        | some n => simp [hsink, hsrc, hn, h1, h2, h3]
        | none => simp [hsink, hsrc, hn, h1, h2, h3]
      | none => simp [hsink, hsrc, h1, h2, h3]
  · intro hnone
    simp [openReply, hnone]

/-- Concrete instantiation of `c7_daemon_service_to_socket`: the unknown
name `bogus` maps to null and is answered with CLSE. -/
theorem c7_daemon_service_to_socket_witness :
    openReply "bogus" = OpenReply.clse :=
  (c7_daemon_service_to_socket "bogus").2.1 (by decide)

/-- The process-wide socket registry (spec section 4.5), reduced to what the
pairing invariant needs: the list of live local-socket ids and each id's peer
pointer (`none` when unpaired). -/
structure SocketRegistry where
  live : List Nat
  peer : Nat → Option Nat

/-- Symmetric-pairing condition at one socket: if it has a peer, the peer is
live and points back. -/
def symAt (reg : SocketRegistry) (a : Nat) : Prop :=
  match reg.peer a with
  | none => True
  | some b => b ∈ reg.live ∧ reg.peer b = some a

instance instDecidableSymAt (reg : SocketRegistry) (a : Nat) :
    Decidable (symAt reg a) := by
  unfold symAt
  cases reg.peer a with
  | none => exact isTrue trivial
  | some b => exact instDecidableAnd

/-- The symmetric-pairing invariant: every live socket with a non-null peer
has a live peer whose back-pointer is itself (`s.peer.peer == s`). -/
def PairSym (reg : SocketRegistry) : Prop :=
  ∀ a ∈ reg.live, symAt reg a

/-- `symAt` in pointer form. -/
theorem symAt_def (reg : SocketRegistry) (a : Nat) :
    symAt reg a ↔ ∀ b, reg.peer a = some b → b ∈ reg.live ∧ reg.peer b = some a := by
  unfold symAt
  cases h : reg.peer a with
  | none => simp
  | some b => simp

/-- Modelled from the spec: `install(sock)` enters a freshly created,
unpaired socket into the registry under an id not currently in use. -/
def installSocket (reg : SocketRegistry) (id : Nat) : SocketRegistry :=
  { live := id :: reg.live,
    peer := fun x => if x = id then none else reg.peer x }

/-- Modelled from the spec: pairing two live, unpaired local sockets with
each other (the OKAY-pairing step / the in-process local pair helper). -/
def pairSockets (reg : SocketRegistry) (a b : Nat) : SocketRegistry :=
  { live := reg.live,
    peer := fun x => if x = a then some b else if x = b then some a else reg.peer x }

/-- `ServiceSocket::Close`: when the closing socket has a peer, first clear
the peer's back-pointer (`peer->peer = nullptr`), then shut down and close
the peer (removing it), and finally remove the closing socket itself
(`remove_socket(this)`). -/
def serviceSocketClose (reg : SocketRegistry) (s : Nat) : SocketRegistry :=
  match reg.peer s with
  | none =>
    { live := reg.live.filter (fun y => y ≠ s), peer := reg.peer }
  | some p =>
    { live := (reg.live.filter (fun y => y ≠ s)).filter (fun y => y ≠ p),
      peer := fun x => if x = p then none else reg.peer x }

instance instDecidablePairSym (reg : SocketRegistry) : Decidable (PairSym reg) := by
  unfold PairSym
  exact List.decidableBAll _ _

/-- Claim C8: symmetric pairing (`s.peer.peer == s` for every live socket
with a non-null peer) is an invariant of the socket operations — installing a
fresh socket, pairing two unpaired sockets, and `ServiceSocket::Close`, which
clears the peer's back-pointer before cascading shutdown and close — and
after a close neither the socket nor its former peer stays live or pointed
to. -/
theorem c8_symmetric_pairing (reg : SocketRegistry) (hsym : PairSym reg) :
    (∀ id, id ∉ reg.live → PairSym (installSocket reg id)) ∧
    (∀ a b, a ∈ reg.live → b ∈ reg.live → a ≠ b →
      reg.peer a = none → reg.peer b = none → PairSym (pairSockets reg a b)) ∧
    (∀ s, s ∈ reg.live → PairSym (serviceSocketClose reg s)) ∧
    (∀ s p, s ∈ reg.live → reg.peer s = some p →
      s ∉ (serviceSocketClose reg s).live ∧
      p ∉ (serviceSocketClose reg s).live ∧
      (serviceSocketClose reg s).peer p = none) := by
  refine ⟨?_, ?_, ?_, ?_⟩
  · -- install keeps the invariant: the new socket is unpaired, and by the
    -- invariant no live socket can point at an id that was not live.
    intro id hid x hx
    rw [symAt_def]
    intro b hb
    simp only [installSocket] at hb ⊢
    by_cases hxid : x = id
    · rw [if_pos hxid] at hb; exact absurd hb (by simp)
    · rw [if_neg hxid] at hb
      have hxlive : x ∈ reg.live := by
        rcases List.mem_cons.mp hx with h | h
        · exact absurd h hxid
        · exact h
      have hsx := (symAt_def reg x).mp (hsym x hxlive) b hb
      have hbid : b ≠ id := fun h => hid (h ▸ hsx.1)
      rw [if_neg hbid]
      exact ⟨List.mem_cons_of_mem _ hsx.1, hsx.2⟩
  · -- pairing two live unpaired sockets keeps the invariant.
    intro a b ha hb hab hpa hpb x hx
    rw [symAt_def]
    intro y hy
    simp only [pairSockets] at hy ⊢
    by_cases hxa : x = a
    · subst hxa
      rw [if_pos rfl] at hy
      injection hy with h
      subst h
      rw [if_neg (Ne.symm hab), if_pos rfl]
      exact ⟨hb, rfl⟩
    · rw [if_neg hxa] at hy
      by_cases hxb : x = b
      · subst hxb
        rw [if_pos rfl] at hy
        injection hy with h
        subst h
        rw [if_pos rfl]
        exact ⟨ha, rfl⟩
      · rw [if_neg hxb] at hy
        have hsx := (symAt_def reg x).mp (hsym x hx) y hy
        have hya : y ≠ a := fun h => by rw [h, hpa] at hsx; exact absurd hsx.2 (by simp)
        have hyb : y ≠ b := fun h => by rw [h, hpb] at hsx; exact absurd hsx.2 (by simp)
        rw [if_neg hya, if_neg hyb]
        exact hsx
  · -- ServiceSocket::Close keeps the invariant.
    intro s hs x hx
    rw [symAt_def]
    intro y hy
    cases hps : reg.peer s with
    | none =>
      simp only [serviceSocketClose, hps] at hx hy ⊢
      simp only [List.mem_filter, decide_eq_true_eq] at hx
      obtain ⟨hxlive, hxs⟩ := hx
      have hsx := (symAt_def reg x).mp (hsym x hxlive) y hy
      have hys : y ≠ s := fun h => by
        rw [h, hps] at hsx; exact absurd hsx.2 (by simp)
      simp only [List.mem_filter, decide_eq_true_eq]
      exact ⟨⟨hsx.1, hys⟩, hsx.2⟩
    | some p =>
      simp only [serviceSocketClose, hps] at hx hy ⊢
      simp only [List.mem_filter, decide_eq_true_eq] at hx
      obtain ⟨⟨hxlive, hxs⟩, hxp⟩ := hx
      have hsp : reg.peer p = some s := ((symAt_def reg s).mp (hsym s hs) p hps).2
      rw [if_neg hxp] at hy
      have hsx := (symAt_def reg x).mp (hsym x hxlive) y hy
      have hys : y ≠ s := fun h => by
        rw [h, hps] at hsx
        have hx' : x = p := by injection hsx.2 with h'; exact h'.symm
        exact hxp hx'
      have hyp : y ≠ p := fun h => by
        rw [h, hsp] at hsx
        have hx' : x = s := by injection hsx.2 with h'; exact h'.symm
        exact hxs hx'
      simp only [List.mem_filter, decide_eq_true_eq]
      rw [if_neg hyp]
      exact ⟨⟨⟨hsx.1, hys⟩, hyp⟩, hsx.2⟩
  · -- after a close, the socket and its former peer are gone and unpointed.
    intro s p _ hps
    unfold serviceSocketClose
    rw [hps]
    refine ⟨?_, ?_, by simp⟩
    · simp [List.mem_filter]
    · simp [List.mem_filter]

/-- Concrete instantiation of `c8_symmetric_pairing`: closing socket `1` of
the symmetrically paired registry `{1 ↔ 2}` leaves a registry that still
satisfies the pairing invariant. -/
theorem c8_symmetric_pairing_witness :
    PairSym (serviceSocketClose
      { live := [1, 2],
        peer := fun x => if x = 1 then some 2 else if x = 2 then some 1 else none }
      1) :=
  (c8_symmetric_pairing
    { live := [1, 2],
      peer := fun x => if x = 1 then some 2 else if x = 2 then some 1 else none }
    (by decide)).2.2.1 1 (by decide)
